import Mathlib

/-!
Shallow embedding of the power-system benchmark harness:
`benchmark_powsybl.py` (timed operation runner, scenario execution,
result-record assembly) and `run_comparison.py` (artifact loading,
cross-engine timing comparison, entry-point exit code).

Modelling conventions:

* Python floats are rationals (`ℚ`); the claims under study concern exact
  values (`4.0`, `0`, presence/absence), not binary rounding.
* A JSON mapping whose keys may be absent or hold `null` is an association
  list `List (String × Option ℚ)`: a missing pair is an absent key, a
  stored `none` is JSON `null`.  Python's `dict.get(k)`, which returns
  `None` both for an absent key and for a stored `null`, is `dictGet`.
* A Python callable that may raise is `Except String α`; `Except.error e`
  is a raised exception with message `e`.
* Wall-clock reads `time.time()` are explicit rational timestamps passed
  to `time_operation`; the clock is assumed monotone (start ≤ end) where a
  claim needs non-negativity.
* Display formatting of numbers (`f"{t:.2f}"`) is presentation only and is
  not modelled; the row type carries the pre-format values.  The literal
  strings `"N/A"`, `"PowSyBl"`, `"PowerModels.jl"` from the source are
  kept exactly.
-/

namespace PowerBench

/-- Python `dict.get(k)` over a JSON object with nullable values:
`none` when the key is absent or its stored value is `null`. -/
def dictGet (d : List (String × Option ℚ)) (k : String) : Option ℚ :=
  match d.lookup k with
  | some v => v
  | none => none

/-- The speedup value computed at run_comparison.py line 97:
either a finite quotient or Python's `float('inf')`. -/
inductive SpeedupVal where
  | val : ℚ → SpeedupVal
  | inf : SpeedupVal
deriving DecidableEq, Repr

/-- One step of Python's `str.title()` as applied at line 104: an alphabetic
character is uppercased when the previous character was not alphabetic and
lowercased otherwise. -/
def titleChars : Bool → List Char → List Char
  | _, [] => []
  | prevAlpha, c :: cs =>
    (if c.isAlpha then (if prevAlpha then c.toLower else c.toUpper) else c) ::
      titleChars c.isAlpha cs

/-- Python `str.title()`. -/
def pyTitle (s : String) : String := String.mk (titleChars false s.data)

/-- Python `s.replace(c, d)` for single-character arguments, as used at
run_comparison.py line 104 (`test_name.replace('_', ' ')`): a character-wise
map. -/
def replaceChar (s : String) (c d : Char) : String :=
  String.mk (s.data.map (fun x => if x = c then d else x))

/-- One row of the comparison table built in `compare_timing_results`
(run_comparison.py lines 103-109).  `speedup = none` is displayed `"N/A"`,
a `none` time is displayed `"FAILED"`. -/
structure ComparisonRow where
  test : String
  powsybl_ms : Option ℚ
  powermodels_ms : Option ℚ
  speedup : Option SpeedupVal
  faster : String
deriving DecidableEq, Repr

/-- Loop body of `compare_timing_results` (run_comparison.py lines 93-109):
both times present → `speedup = powsybl_time / powermodels_time`
(`float('inf')` when the denominator is `0`), faster label
`"PowerModels.jl"` iff `powermodels_time < powsybl_time`; otherwise
`speedup = None`, faster `"N/A"`. -/
def timing_row (test_name : String) (powsybl_time powermodels_time : Option ℚ) :
    ComparisonRow :=
  match powsybl_time, powermodels_time with
  | some ps, some pm =>
      { test := pyTitle (replaceChar test_name '_' ' ')
        powsybl_ms := some ps
        powermodels_ms := some pm
        speedup := some (if pm ≠ 0 then SpeedupVal.val (ps / pm) else SpeedupVal.inf)
        faster := if pm < ps then "PowerModels.jl" else "PowSyBl" }
  | ps, pm =>
      { test := pyTitle (replaceChar test_name '_' ' ')
        powsybl_ms := ps
        powermodels_ms := pm
        speedup := none
        faster := "N/A" }

/-- The fixed scenario catalog, in the order of the loop at
run_comparison.py lines 91-92. -/
def scenario_keys : List String :=
  ["ac_power_flow", "dc_power_flow", "dc_contingency_analysis", "ptdf_calculation"]

/-- A loaded result artifact, restricted to the fields the comparator
reads (`timing_ms`, `success_rates`). -/
structure ResultRecord where
  timing_ms : List (String × Option ℚ)
  success_rates : List (String × String)
deriving DecidableEq, Repr

/-- `compare_timing_results` (run_comparison.py lines 74-114): returns
`None` when either record is absent (lines 80-82), otherwise one row per
fixed scenario key, in fixed order. -/
def compare_timing_results (powsybl_results powermodels_results : Option ResultRecord) :
    Option (List ComparisonRow) :=
  match powsybl_results, powermodels_results with
  | some ps, some pm =>
      some (scenario_keys.map (fun test_name =>
        timing_row test_name (dictGet ps.timing_ms test_name)
          (dictGet pm.timing_ms test_name)))
  | _, _ => none

/-- State of a result artifact file as `load_json_results` can encounter it. -/
inductive FileContent where
  | missing
  | malformed (err : String)
  | parsed (r : ResultRecord)

/-- `load_json_results` (run_comparison.py lines 61-71): returns the parsed
record, or `None` plus a printed warning naming the file on a missing or
malformed artifact. -/
def load_json_results (filename : String) (file : FileContent) :
    Option ResultRecord × Option String :=
  match file with
  | FileContent.missing =>
      (none, some ("⚠️  Warning: " ++ filename ++ " not found"))
  | FileContent.malformed e =>
      (none, some ("⚠️  Warning: Error loading " ++ filename ++ ": " ++ e))
  | FileContent.parsed r => (some r, none)

/-- Exit code of `main` in run_comparison.py.  Line 185 returns `1` when the
test-system file is absent; line 260 returns
`0 if (results['powsybl_success'] and results['powermodels_success']) else 1`.
The two artifact-existence flags are what the summary loop at lines 254-258
observes with `os.path.exists`; `main` only prints them — they do not enter
the returned code. -/
def main_exit (test_system_exists powsybl_success powermodels_success
    powsybl_artifact_exists powermodels_artifact_exists : Bool) : Nat :=
  if test_system_exists = false then 1
  else if powsybl_success && powermodels_success then 0 else 1

/-- Result of `time_operation` (benchmark_powsybl.py lines 19-31), the
Python triple `(elapsed * 1000, success, result)`. -/
structure TimedOutcome (α : Type) where
  elapsed_ms : ℚ
  succeeded : Bool
  payload : Option α
deriving Repr

/-- `time_operation` (benchmark_powsybl.py lines 19-31): run the operation
once between the two clock reads; a normal return gives
`(elapsed*1000, True, result)`, a raised exception is caught and gives
`(elapsed*1000, False, None)`.  The function is total into `TimedOutcome`
— the exception is never re-thrown (source: the bare `except Exception`
returns instead of re-raising). -/
def time_operation {α : Type} (op : Except String α) (start_time end_time : ℚ) :
    TimedOutcome α :=
  match op with
  | Except.ok r =>
      { elapsed_ms := (end_time - start_time) * 1000
        succeeded := true
        payload := some r }
  | Except.error _ =>
      { elapsed_ms := (end_time - start_time) * 1000
        succeeded := false
        payload := none }

/-- The loaded network, restricted to the element-identifier universes the
benchmark reads (benchmark_powsybl.py lines 65-88). -/
structure Network where
  branch_ids : List String
  generator_ids : List String
  load_ids : List String
deriving Repr

/-- The deterministic subset selection of benchmark_powsybl.py lines 81-88:
`sorted(ids)[:n]`.  Python's `sorted` is embedded as a sorting function
under the lexicographic order on `String`; with a linear order the sorted
permutation of a list is unique, so any correct sort is an extensionally
faithful embedding of `sorted`. -/
def select_subset (ids : List String) (n : Nat) : List String :=
  (List.insertionSort (fun a b => a ≤ b) ids).take n

/-- Per-contingency computation status of the external security-analysis
engine (`pypowsybl.security.ComputationStatus`). -/
inductive ComputationStatus where
  | CONVERGED
  | MAX_ITERATION_REACHED
  | SOLVER_FAILED
  | NO_CALCULATION
deriving DecidableEq, Repr

/-- One entry of `sa_result.post_contingency_results`. -/
structure PostContingencyResult where
  status : ComputationStatus
deriving DecidableEq, Repr

/-- The structured multi-result returned by the single `run_dc` call of the
security analysis. -/
structure SecurityAnalysisResult where
  post_contingency_results : List PostContingencyResult
deriving DecidableEq, Repr

/-- The security-analysis batch object (`pypowsybl.security`): contingencies
are accumulated, then one `run_dc` executes the whole batch. -/
structure SecurityAnalysis where
  contingencies : List String
deriving DecidableEq, Repr

/-- `sec.create_analysis()`. -/
def sec_create_analysis : SecurityAnalysis := { contingencies := [] }

/-- `sa.add_single_element_contingencies(ids)`: accumulation method of the
batch object. -/
def add_single_element_contingencies (sa : SecurityAnalysis) (ids : List String) :
    SecurityAnalysis :=
  { sa with contingencies := sa.contingencies ++ ids }

/-- Modelled external engine call `sa.run_dc(network, ...)`: per the spec,
one execute call returning a structured multi-result with one
post-contingency entry per accumulated contingency; the statuses are an
oracle parameter since the solver itself is out of scope. -/
def security_run_dc (sa : SecurityAnalysis) (network : Network)
    (status_of : String → ComputationStatus) : SecurityAnalysisResult :=
  { post_contingency_results :=
      sa.contingencies.map (fun id => { status := status_of id }) }

/-- `run_security_analysis` (benchmark_powsybl.py lines 133-136): build one
batch object carrying every contingency, then a single `run_dc` call.  The
second component is the list of batch objects submitted to the engine —
the source submits exactly this one. -/
def run_security_analysis (network : Network) (contingency_branches : List String)
    (status_of : String → ComputationStatus) :
    SecurityAnalysisResult × List SecurityAnalysis :=
  let sa := sec_create_analysis
  let sa := add_single_element_contingencies sa contingency_branches
  (security_run_dc sa network status_of, [sa])

/-- The sensitivity-analysis batch object (`pypowsybl.sensitivity`): a
factor matrix and contingencies are accumulated, then one `run` executes
the whole batch. -/
structure DcSensitivityAnalysis where
  factor_matrices : List (List String × List String)
  contingencies : List String
deriving DecidableEq, Repr

/-- `sens.create_dc_analysis()`. -/
def create_dc_analysis : DcSensitivityAnalysis :=
  { factor_matrices := [], contingencies := [] }

/-- `analysis.add_branch_flow_factor_matrix(branches_ids, variables_ids)`:
accumulation method adding the monitored-branch × injection-point PTDF
matrix request. -/
def add_branch_flow_factor_matrix (analysis : DcSensitivityAnalysis)
    (branches_ids variables_ids : List String) : DcSensitivityAnalysis :=
  { analysis with
      factor_matrices := analysis.factor_matrices ++ [(branches_ids, variables_ids)] }

/-- `analysis.add_single_element_contingency(branch_id)`: accumulation
method adding one contingency to the batch. -/
def add_single_element_contingency (analysis : DcSensitivityAnalysis)
    (branch_id : String) : DcSensitivityAnalysis :=
  { analysis with contingencies := analysis.contingencies ++ [branch_id] }

/-- Modelled external engine call `analysis.run(network)`: per the spec, a
single execute call returning a structured multi-result covering the base
case (`none`) plus every accumulated contingency (`some id`). -/
structure SensitivityMultiResult where
  cases : List (Option String)
deriving DecidableEq, Repr

/-- The modelled `analysis.run(network)` call. -/
def sensitivity_run (analysis : DcSensitivityAnalysis) (network : Network) :
    SensitivityMultiResult :=
  { cases := none :: analysis.contingencies.map some }

/-- `run_ptdf_analysis` (benchmark_powsybl.py lines 34-54): one analysis
object, one factor matrix, a loop of `add_single_element_contingency`
accumulations onto that same object, then a single `run`.  The second
component is the list of batch objects submitted to the engine — the
source submits exactly this one. -/
def run_ptdf_analysis (network : Network)
    (contingency_branches monitored_branches injection_points : List String) :
    SensitivityMultiResult × List DcSensitivityAnalysis :=
  let analysis := create_dc_analysis
  let analysis := add_branch_flow_factor_matrix analysis monitored_branches injection_points
  let analysis := contingency_branches.foldl add_single_element_contingency analysis
  (sensitivity_run analysis network, [analysis])

/-- Count of converged contingencies (benchmark_powsybl.py line 144):
`len([c for c in sa_result.post_contingency_results.values() if c.status == CONVERGED])`. -/
def successful_contingencies (sa_result : SecurityAnalysisResult) : Nat :=
  (sa_result.post_contingency_results.filter
    (fun c => c.status == ComputationStatus.CONVERGED)).length

/-- The success-rate string of benchmark_powsybl.py line 145:
`f"{successful_contingencies}/{len(contingency_branches)}"`. -/
def dc_contingency_rate (sa_result : SecurityAnalysisResult)
    (contingency_branches : List String) : String :=
  toString (successful_contingencies sa_result) ++ "/" ++
    toString contingency_branches.length

/-- Assembly of `results['success_rates']` by `main`
(benchmark_powsybl.py lines 138-157): the `dc_contingency` entry is written
only inside `if success:` after the contingency batch (lines 143-145), the
`ptdf` entry only on PTDF success (lines 156-157).  `time_operation`
guarantees `succeeded = true → payload = some result`; the
`(true, none)` arm below is unreachable. -/
def benchmark_success_rates (contingency_branches : List String)
    (sa_op : Except String SecurityAnalysisResult) (sa_start sa_end : ℚ)
    (ptdf_op : Except String SensitivityMultiResult) (ptdf_start ptdf_end : ℚ) :
    List (String × String) :=
  let sa_outcome := time_operation sa_op sa_start sa_end
  let ptdf_outcome := time_operation ptdf_op ptdf_start ptdf_end
  (match sa_outcome.succeeded, sa_outcome.payload with
   | true, some sa_result =>
       [("dc_contingency", dc_contingency_rate sa_result contingency_branches)]
   | _, _ => []) ++
  (if ptdf_outcome.succeeded then [("ptdf", "calculation_completed")] else [])

/-- Assembly of `results['timing_ms']` by `main`
(benchmark_powsybl.py lines 119-155): each of the four catalog keys is
assigned `elapsed if success else None`, unconditionally and in catalog
order. -/
def benchmark_timing_ms {α β γ δ : Type}
    (ac_outcome : TimedOutcome α) (dc_outcome : TimedOutcome β)
    (cont_outcome : TimedOutcome γ) (ptdf_outcome : TimedOutcome δ) :
    List (String × Option ℚ) :=
  [("ac_power_flow",
      if ac_outcome.succeeded then some ac_outcome.elapsed_ms else none),
   ("dc_power_flow",
      if dc_outcome.succeeded then some dc_outcome.elapsed_ms else none),
   ("dc_contingency_analysis",
      if cont_outcome.succeeded then some cont_outcome.elapsed_ms else none),
   ("ptdf_calculation",
      if ptdf_outcome.succeeded then some ptdf_outcome.elapsed_ms else none)]

/-- The spec's comparison scenario, record A: engine A has
`ac_power_flow = 100 ms` and `dc_power_flow = 50 ms`.  The scenario's
required outputs (`speedup = 4.0` for row 1) force A to be the
PowerModels record, i.e. the comparator's second argument. -/
def scenario_record_A : ResultRecord :=
  { timing_ms := [("ac_power_flow", some 100), ("dc_power_flow", some 50)]
    success_rates := [] }

/-- The spec's comparison scenario, record B: engine B has
`ac_power_flow = 400 ms` and no `dc_power_flow` entry; B is the PowSyBl
record, the comparator's first argument. -/
def scenario_record_B : ResultRecord :=
  { timing_ms := [("ac_power_flow", some 400)]
    success_rates := [] }

/-- A record timing `ac_power_flow` at exactly 100 ms, used to exercise the
tie case `timeA = timeB`. -/
def tie_record : ResultRecord :=
  { timing_ms := [("ac_power_flow", some 100)]
    success_rates := [] }

/-! ## Helper lemmas -/

/-- The displayed test name of a row does not depend on which timings are
present. -/
theorem timing_row_test (test_name : String) (v w : Option ℚ) :
    (timing_row test_name v w).test = pyTitle (replaceChar test_name '_' ' ') := by
  cases v <;> cases w <;> rfl

/-- A row's speedup is absent exactly when one of the two timings is. -/
theorem timing_row_speedup_none_iff (test_name : String) (v w : Option ℚ) :
    (timing_row test_name v w).speedup = none ↔ (v = none ∨ w = none) := by
  cases v <;> cases w <;> simp [timing_row]

/-- A row's faster label is `"N/A"` exactly when one of the two timings is
absent. -/
theorem timing_row_faster_na_iff (test_name : String) (v w : Option ℚ) :
    (timing_row test_name v w).faster = "N/A" ↔ (v = none ∨ w = none) := by
  cases v with
  | none => simp [timing_row]
  | some ps =>
    cases w with
    | none => simp [timing_row]
    | some pm =>
      simp only [timing_row]
      constructor
      · intro h
        by_cases hlt : pm < ps <;> simp [hlt] at h
      · intro h
        cases h <;> simp_all

/-- Folding the contingency-accumulation method over a list appends all its
elements to the batch object, touching nothing else. -/
theorem foldl_add_single_element_contingency (ids : List String)
    (init : DcSensitivityAnalysis) :
    ids.foldl add_single_element_contingency init
      = { factor_matrices := init.factor_matrices
          contingencies := init.contingencies ++ ids } := by
  induction ids generalizing init with
  | nil => simp
  | cons head tail ih =>
    simp [List.foldl_cons, add_single_element_contingency, ih, List.append_assoc]

/-! ## Claim theorems -/

/-- Claim C3: for every operation that raises, `time_operation` returns
`succeeded = false` with a non-negative elapsed duration (under a monotone
clock, `start_time ≤ end_time`), and never propagates the exception —
structurally, `time_operation` is a total function into `TimedOutcome`,
with no exceptional return path; for every operation that returns
normally it returns `succeeded = true` carrying the operation's result. -/
theorem time_operation_isolates_failures {α : Type} (op : Except String α)
    (start_time end_time : ℚ) (hclock : start_time ≤ end_time) :
    (∀ e, op = Except.error e →
      (time_operation op start_time end_time).succeeded = false ∧
        0 ≤ (time_operation op start_time end_time).elapsed_ms) ∧
    (∀ r, op = Except.ok r →
      (time_operation op start_time end_time).succeeded = true ∧
        (time_operation op start_time end_time).payload = some r) := by
  constructor
  · rintro e rfl
    refine ⟨rfl, ?_⟩
    have h0 : (0 : ℚ) ≤ end_time - start_time := sub_nonneg.mpr hclock
    have h1 : (0 : ℚ) ≤ (end_time - start_time) * 1000 :=
      mul_nonneg h0 (by norm_num)
    simpa [time_operation] using h1
  · rintro r rfl
    exact ⟨rfl, rfl⟩

/-- Witness for C3: a concrete raising operation between clock reads 0 and
1 yields `succeeded = false` and a non-negative duration. -/
theorem time_operation_isolates_failures_witness :
    (0 : ℚ) ≤ 1 ∧
      ((time_operation (Except.error "solver diverged" : Except String Unit) 0 1).succeeded
          = false ∧
        0 ≤ (time_operation (Except.error "solver diverged" : Except String Unit) 0 1).elapsed_ms) :=
  ⟨by decide,
    (time_operation_isolates_failures (Except.error "solver diverged" : Except String Unit)
      0 1 (by decide)).1 "solver diverged" rfl⟩

/-- Claim C5: when both timings are present and the denominator timing
(`timeA`, the PowerModels entry, per the assignment forced by the claim's
own scenario in C1) is zero, the row carries the explicit `float('inf')`
speedup value.  `timing_row` and `compare_timing_results` are total Lean
functions, so no division-by-zero crash is possible anywhere in the
comparison. -/
theorem timing_row_zero_denominator (test_name : String) (timeB : ℚ) :
    (timing_row test_name (some timeB) (some 0)).speedup = some SpeedupVal.inf := by
  simp [timing_row]

/-- Claim C4 (amended): with the test-system precondition satisfied, `main`
returns exit code 0 exactly when both benchmark subprocesses succeeded; the
artifact-existence flags are printed in the final summary but do not enter
the exit code.  When the precondition fails the exit code is 1. -/
theorem main_exit_code (ps pm a1 a2 : Bool) :
    main_exit true ps pm a1 a2 = (if ps && pm then 0 else 1) ∧
    main_exit false ps pm a1 a2 = 1 := by
  cases ps <;> cases pm <;> exact ⟨rfl, rfl⟩

/-- Counterexample to claim C4 as stated: both subprocess runs succeed but
neither result artifact exists — the claim requires exit code 1 ("exits
with code 1 if ... its result artifact file is missing"), the code returns
0. -/
theorem main_exit_ignores_artifacts_cex :
    main_exit true true true false false = 0 ∧ (0 : Nat) ≠ 1 :=
  ⟨rfl, by decide⟩

/-- Claim C7: subset selection is deterministic.  `select_subset` is by
definition the fixed-size prefix of the lexicographically sorted candidate
list; consequently any two invocations over the same candidate identifier
set (any two orderings of the candidate list) produce identical ordered
selections, and every selection is lexicographically sorted. -/
theorem select_subset_deterministic (l1 l2 : List String) (n : Nat) (h : l1.Perm l2) :
    select_subset l1 n = select_subset l2 n ∧
      (select_subset l1 n).Sorted (· ≤ ·) := by
  constructor
  · unfold select_subset
    congr 1
    exact List.eq_of_perm_of_sorted
      ((List.perm_insertionSort _ l1).trans (h.trans (List.perm_insertionSort _ l2).symm))
      (List.sorted_insertionSort _ _) (List.sorted_insertionSort _ _)
  · exact (List.sorted_insertionSort _ _).sublist (List.take_sublist _ _)

/-- Witness for C7: two orderings of the same three branch identifiers give
the same two-element selection. -/
theorem select_subset_deterministic_witness :
    (["BRANCH-7", "BRANCH-23", "BRANCH-11"] : List String).Perm
        ["BRANCH-11", "BRANCH-7", "BRANCH-23"] ∧
      select_subset ["BRANCH-7", "BRANCH-23", "BRANCH-11"] 2
        = select_subset ["BRANCH-11", "BRANCH-7", "BRANCH-23"] 2 :=
  ⟨by decide, (select_subset_deterministic _ _ 2 (by decide)).1⟩

/-- Claim C1 (amended): writing A for the PowerModels record (the
comparator's second argument) and B for the PowSyBl record (the first
argument) — the assignment forced by the claim's own concrete scenario —
every row with both timings numeric and `timeA ≠ 0` has
`speedup = timeB / timeA`, and the faster-engine label is A
(`"PowerModels.jl"`) when `timeA < timeB` and B (`"PowSyBl"`) when
`timeB ≤ timeA`: ties are labelled B, not A as the claim's "B when
timeB < timeA and A otherwise" states.  A speedup value `> 1` does mean A
is faster.  In the concrete scenario (A: ac=100 ms, dc=50 ms; B: ac=400 ms,
no dc) the first row has speedup `400 / 100 = 4.0` and faster-engine A,
and the second row has absent (`"N/A"`) speedup and faster-engine
`"N/A"`. -/
theorem compare_timing_speedup_and_faster :
    (∀ (test_name : String) (timeA timeB : ℚ), timeA ≠ 0 →
      (timing_row test_name (some timeB) (some timeA)).speedup
          = some (SpeedupVal.val (timeB / timeA)) ∧
        (timing_row test_name (some timeB) (some timeA)).faster
          = (if timeA < timeB then "PowerModels.jl" else "PowSyBl")) ∧
    (∀ (test_name : String) (timeA timeB : ℚ), 0 < timeA →
      (1 < timeB / timeA ↔
        (timing_row test_name (some timeB) (some timeA)).faster = "PowerModels.jl")) ∧
    ((compare_timing_results (some scenario_record_B) (some scenario_record_A)).map
        (fun rows => rows.map (fun r => (r.speedup, r.faster)))
      = some [(some (SpeedupVal.val (400 / 100)), "PowerModels.jl"),
              (none, "N/A"), (none, "N/A"), (none, "N/A")]) ∧
    (400 : ℚ) / 100 = 4 := by
  refine ⟨?_, ?_, rfl, by norm_num⟩
  · intro test_name timeA timeB ha
    exact ⟨by simp [timing_row, ha], rfl⟩
  · intro test_name timeA timeB ha
    rw [one_lt_div ha]
    by_cases hab : timeA < timeB <;> simp [timing_row, hab]

/-- Witness for C1: the general rule applied at `timeA = 100`, `timeB = 400`
gives speedup `400 / 100` and faster-engine `"PowerModels.jl"`. -/
theorem compare_timing_speedup_and_faster_witness :
    (100 : ℚ) ≠ 0 ∧
      (timing_row "ac_power_flow" (some 400) (some 100)).speedup
        = some (SpeedupVal.val (400 / 100)) :=
  ⟨by decide, (compare_timing_speedup_and_faster.1 "ac_power_flow" 100 400 (by decide)).1⟩

/-- Counterexample to claim C1 as stated: with both engines timing
`ac_power_flow` at 100 ms (`timeB = timeA`), the claim's rule "the
faster-engine label is B when timeB < timeA and A otherwise" requires
label A (`"PowerModels.jl"`); the code produces B (`"PowSyBl"`). -/
theorem compare_timing_tie_label_cex :
    (compare_timing_results (some tie_record) (some tie_record)).map
        (fun rows => rows.map (fun r => r.faster))
      = some ["PowSyBl", "N/A", "N/A", "N/A"] ∧
    "PowSyBl" ≠ "PowerModels.jl" :=
  ⟨by decide, by decide⟩

/-- Claim C2: for every pair of loaded records the comparator emits exactly
one row per key of the fixed catalog, in the fixed order (the four titled
test names), and a row's speedup is absent (displayed `"N/A"`) and its
faster-engine label is the string `"N/A"` precisely when either record's
timing for that key is absent or null (both read back as `none` by
`dictGet`); the row itself is always emitted — `compare_timing_results`
of two present records is never `none` and never skips a key. -/
theorem compare_timing_row_per_key (ps pm : ResultRecord) :
    (compare_timing_results (some ps) (some pm)).isSome = true ∧
    ((compare_timing_results (some ps) (some pm)).getD []).map (fun r => r.test)
      = ["Ac Power Flow", "Dc Power Flow", "Dc Contingency Analysis", "Ptdf Calculation"] ∧
    List.Forall₂
      (fun k r =>
        (r.speedup = none ↔
          (dictGet ps.timing_ms k = none ∨ dictGet pm.timing_ms k = none)) ∧
        (r.faster = "N/A" ↔
          (dictGet ps.timing_ms k = none ∨ dictGet pm.timing_ms k = none)))
      scenario_keys ((compare_timing_results (some ps) (some pm)).getD []) := by
  have hrows : (compare_timing_results (some ps) (some pm)).getD []
      = scenario_keys.map (fun test_name =>
          timing_row test_name (dictGet ps.timing_ms test_name)
            (dictGet pm.timing_ms test_name)) := rfl
  refine ⟨rfl, ?_, ?_⟩
  · rw [hrows, List.map_map]
    have hteach : ∀ k,
        ((fun r => ComparisonRow.test r) ∘ fun test_name =>
            timing_row test_name (dictGet ps.timing_ms test_name)
              (dictGet pm.timing_ms test_name)) k
          = pyTitle (replaceChar k '_' ' ') := by
      intro k
      exact timing_row_test k _ _
    rw [List.map_congr_left (fun k _ => hteach k)]
    decide
  · rw [hrows, List.forall₂_map_right_iff, List.forall₂_same]
    intro k _
    exact ⟨timing_row_speedup_none_iff k _ _, timing_row_faster_na_iff k _ _⟩

/-- Claim C6 (amended): loading a missing or malformed artifact yields an
absent (`none`) record together with a printed warning naming the file;
given an absent record on either side the comparator proceeds without
raising but returns `none` — it emits no comparison rows at all.  (Partial
comparisons with `N/A` rows arise only when both artifacts load, contra
the claim.) -/
theorem load_failure_yields_none_and_no_rows (filename e : String)
    (r : Option ResultRecord) :
    load_json_results filename FileContent.missing
      = (none, some ("⚠️  Warning: " ++ filename ++ " not found")) ∧
    load_json_results filename (FileContent.malformed e)
      = (none, some ("⚠️  Warning: Error loading " ++ filename ++ ": " ++ e)) ∧
    compare_timing_results none r = none ∧
    compare_timing_results r none = none := by
  cases r <;> exact ⟨rfl, rfl, rfl, rfl⟩

/-- Counterexample to claim C6 as stated: with the PowSyBl artifact missing
(`none`) and the PowerModels artifact present, the claim requires a partial
comparison with `N/A` rows to still be produced; the code returns `none` —
no row list exists. -/
theorem compare_missing_artifact_no_rows_cex :
    compare_timing_results none (some scenario_record_A) = none ∧
    ¬ ∃ rows, compare_timing_results none (some scenario_record_A) = some rows := by
  refine ⟨rfl, ?_⟩
  rintro ⟨rows, h⟩
  rw [show compare_timing_results none (some scenario_record_A) = none from rfl] at h
  exact Option.noConfusion h

/-- Claim C8: when the contingency batch call succeeds with result `r`, the
record's success-rate entry is the string `"<converged>/<total>"`, where
converged counts the post-contingency outcomes whose status is
`CONVERGED` and total is the number of contingencies submitted; when the
batch call itself raises, no `dc_contingency` entry is recorded. -/
theorem dc_contingency_success_rate (contingency_branches : List String)
    (r : SecurityAnalysisResult) (e : String) (sa_start sa_end : ℚ)
    (ptdf_op : Except String SensitivityMultiResult) (ptdf_start ptdf_end : ℚ) :
    (benchmark_success_rates contingency_branches (Except.ok r) sa_start sa_end
        ptdf_op ptdf_start ptdf_end).lookup "dc_contingency"
      = some (toString (successful_contingencies r) ++ "/" ++
          toString contingency_branches.length) ∧
    successful_contingencies r
      = r.post_contingency_results.countP
          (fun c => c.status == ComputationStatus.CONVERGED) ∧
    (benchmark_success_rates contingency_branches (Except.error e) sa_start sa_end
        ptdf_op ptdf_start ptdf_end).lookup "dc_contingency" = none := by
  refine ⟨rfl, ?_, ?_⟩
  · rw [successful_contingencies, List.countP_eq_length_filter]
  · cases ptdf_op <;> rfl

/-- Claim C9: both batch scenarios submit exactly one analysis object to
the engine.  The PTDF scenario accumulates its single factor matrix and all
contingency branches onto one `DcSensitivityAnalysis` and makes one `run`
call, whose structured multi-result covers the base case plus every
contingency; the contingency scenario accumulates all contingencies onto
one `SecurityAnalysis` and makes one `run_dc` call returning one
post-contingency entry per submitted contingency.  Neither issues N
independent solver calls. -/
theorem single_batch_analysis (network : Network)
    (contingency_branches monitored_branches injection_points : List String)
    (status_of : String → ComputationStatus) :
    (run_ptdf_analysis network contingency_branches monitored_branches
        injection_points).2
      = [{ factor_matrices := [(monitored_branches, injection_points)]
           contingencies := contingency_branches }] ∧
    (run_ptdf_analysis network contingency_branches monitored_branches
        injection_points).1.cases
      = none :: contingency_branches.map some ∧
    (run_security_analysis network contingency_branches status_of).2
      = [{ contingencies := contingency_branches }] ∧
    (run_security_analysis network contingency_branches status_of).1.post_contingency_results
      = contingency_branches.map (fun id => { status := status_of id }) := by
  have hacc : contingency_branches.foldl add_single_element_contingency
      (add_branch_flow_factor_matrix create_dc_analysis monitored_branches injection_points)
      = { factor_matrices := [(monitored_branches, injection_points)]
          contingencies := contingency_branches } := by
    rw [foldl_add_single_element_contingency]
    rfl
  refine ⟨?_, ?_, rfl, rfl⟩
  · show [contingency_branches.foldl add_single_element_contingency _] = _
    rw [hacc]
  · show (sensitivity_run (contingency_branches.foldl add_single_element_contingency _)
        network).cases = _
    rw [hacc]
    rfl

/-- Claim C10: the assembled `timing_ms` mapping of a complete benchmark
run holds exactly the four catalog keys, in catalog order; every key is
present, bound to `some` of the measured duration when its scenario
succeeded and to an explicit null (`none`) when it failed — never an
absent key, never an invented zero. -/
theorem benchmark_timing_complete {α β γ δ : Type}
    (ac_outcome : TimedOutcome α) (dc_outcome : TimedOutcome β)
    (cont_outcome : TimedOutcome γ) (ptdf_outcome : TimedOutcome δ) :
    (benchmark_timing_ms ac_outcome dc_outcome cont_outcome ptdf_outcome).map
        Prod.fst = scenario_keys ∧
    (benchmark_timing_ms ac_outcome dc_outcome cont_outcome ptdf_outcome).lookup
        "ac_power_flow"
      = some (if ac_outcome.succeeded then some ac_outcome.elapsed_ms else none) ∧
    (benchmark_timing_ms ac_outcome dc_outcome cont_outcome ptdf_outcome).lookup
        "dc_power_flow"
      = some (if dc_outcome.succeeded then some dc_outcome.elapsed_ms else none) ∧
    (benchmark_timing_ms ac_outcome dc_outcome cont_outcome ptdf_outcome).lookup
        "dc_contingency_analysis"
      = some (if cont_outcome.succeeded then some cont_outcome.elapsed_ms else none) ∧
    (benchmark_timing_ms ac_outcome dc_outcome cont_outcome ptdf_outcome).lookup
        "ptdf_calculation"
      = some (if ptdf_outcome.succeeded then some ptdf_outcome.elapsed_ms else none) ∧
    ∀ k, k ∈ scenario_keys →
      ((benchmark_timing_ms ac_outcome dc_outcome cont_outcome ptdf_outcome).lookup
          k).isSome = true := by
  refine ⟨rfl, rfl, rfl, rfl, rfl, ?_⟩
  intro k hk
  simp only [scenario_keys, List.mem_cons, List.not_mem_nil, or_false] at hk
  rcases hk with rfl | rfl | rfl | rfl <;> rfl

/-- Witness for C10: concrete outcomes (AC succeeded in 12 ms, the rest
failed) still leave every catalog key present. -/
theorem benchmark_timing_complete_witness :
    "dc_contingency_analysis" ∈ scenario_keys ∧
      ((benchmark_timing_ms
            ({ elapsed_ms := 12, succeeded := true, payload := some () } : TimedOutcome Unit)
            ({ elapsed_ms := 3, succeeded := false, payload := none } : TimedOutcome Unit)
            ({ elapsed_ms := 7, succeeded := false, payload := none } : TimedOutcome Unit)
            ({ elapsed_ms := 9, succeeded := false, payload := none } : TimedOutcome Unit)).lookup
          "dc_contingency_analysis").isSome = true :=
  ⟨by decide,
    (benchmark_timing_complete
        ({ elapsed_ms := 12, succeeded := true, payload := some () } : TimedOutcome Unit)
        ({ elapsed_ms := 3, succeeded := false, payload := none } : TimedOutcome Unit)
        ({ elapsed_ms := 7, succeeded := false, payload := none } : TimedOutcome Unit)
        ({ elapsed_ms := 9, succeeded := false, payload := none } : TimedOutcome Unit)).2.2.2.2.2
      "dc_contingency_analysis" (by decide)⟩

end PowerBench
